import Mathlib

/-
Verification of the availability computation and booking protocol of
Kandor Schedulify (src/app.py), as a shallow embedding in Lean 4.

Modeling conventions, stated once here:

* Python `dt.time` values are modeled as natural numbers counting minutes
  since local midnight.  Python compares `dt.time` lexicographically by
  (hour, minute, second, microsecond), which agrees with the numeric order
  of minutes-since-midnight at the one-minute granularity at which the app
  operates (work hours are parsed from "HH:MM" strings and slots advance in
  whole minutes).
* `build_slots` (src/app.py lines 257-268) combines its `day` argument with
  times of day only to do within-day datetime arithmetic; the loop guard
  `t + step <= end` keeps every produced datetime inside the same day, so
  the `day` argument is dropped and the arithmetic is on minute counts.
  The Python while loop is embedded as structural recursion on a fuel
  argument; fuel `work_end + 1` is enough for every positive meeting
  duration (for duration 0 the Python loop never terminates, and the
  embedding returns the empty list once fuel runs out).
* The HTTP layer (`requests.get` inside `graph_day_view`) is fallible:
  it either completes with a response (status code plus decoded body) or
  raises a transport exception.  It is embedded as
  `Except String HttpResponse`, `.error` being a raised exception, which
  `graph_day_view` does not catch.
* `st.rerun()` raises a control-flow exception in Streamlit, so statements
  after it in the same branch never execute; the confirm flow is embedded
  as a function returning which terminal branch was taken and which side
  effects happened before termination.
-/

/-- Blocking event statuses, src/app.py line 48:
BUSY_STATUSES contains busy, oof, workingelsewhere, tentative.
(The Python set is embedded as a list; only membership is used.) -/
def BUSY_STATUSES : List String := ["busy", "oof", "workingelsewhere", "tentative"]

/-- Minimum lead time in minutes for same-day slots, src/app.py line 49. -/
def MIN_LEAD_MINUTES : Nat := 5

/-- Minutes in a day; a Python `dt.time` wraps modulo this. -/
def MINUTES_PER_DAY : Nat := 1440

/-- Open-interval overlap test, src/app.py lines 254-255:
overlap returns max(a_start, b_start) < min(a_end, b_end). -/
def overlap (a_start a_end b_start b_end : Nat) : Bool :=
  decide (max a_start b_start < min a_end b_end)

/-- The `any(overlap(s, e, bs, be) for bs, be in busy)` expression of
src/app.py line 265. -/
def hasOverlap (s e : Nat) (busy : List (Nat × Nat)) : Bool :=
  busy.any (fun b => overlap s e b.1 b.2)

/-- The while loop of `build_slots`, src/app.py lines 262-268, as fuel
recursion: from current time `t`, while `t + step <= end` holds, keep `t`
when no busy interval overlaps `[t, t + step)` and advance by `step`. -/
def build_slots_from (meeting_minutes work_end : Nat) (busy : List (Nat × Nat)) :
    Nat → Nat → List Nat
  | 0, _ => []
  | fuel + 1, t =>
    if t + meeting_minutes ≤ work_end then
      if hasOverlap t (t + meeting_minutes) busy then
        build_slots_from meeting_minutes work_end busy fuel (t + meeting_minutes)
      else
        t :: build_slots_from meeting_minutes work_end busy fuel (t + meeting_minutes)
    else []

/-- Slot generation, src/app.py lines 257-268: walk the work window from
`work_start` in `meeting_minutes` steps, keeping every step start whose
slot fits before `work_end` and overlaps no busy interval. -/
def build_slots (work_start work_end meeting_minutes : Nat)
    (busy : List (Nat × Nat)) : List Nat :=
  build_slots_from meeting_minutes work_end busy (work_end + 1) work_start

/-- One event as returned by the Graph calendarView query and consumed by
src/app.py lines 652-662 and 213-218.  `showAs` is `none` when the field is
missing or JSON null; `startTime` / `endTime` are the times of day obtained
by `dt.datetime.fromisoformat(...).time()`, or `none` when the raw payload
is malformed and parsing raises (ISO-8601 parsing itself is outside the
embedding). -/
structure GraphEvent where
  isCancelled : Bool
  showAs : Option String
  startTime : Option Nat
  endTime : Option Nat

/-- Python `str.lower()`, applied characterwise to the underlying character
list (the statuses compared in the app are ASCII, where this agrees with
Python). -/
def pyLower (s : String) : String := String.mk (s.data.map Char.toLower)

/-- The Python expression `(ev.get("showAs") or "busy")` of src/app.py
lines 216 and 655: a missing/None field and the empty string are both falsy
in Python, so both default to "busy". -/
def showAsOrBusy (showAs : Option String) : String :=
  match showAs with
  | none => "busy"
  | some s => if s = "" then "busy" else s

/-- Busy-interval construction from the day view, src/app.py lines 652-662:
for each event, skip it when cancelled, skip it when its lower-cased status
is not in BUSY_STATUSES, then try to parse its timestamps and on failure
skip just that event (`except Exception: continue`); otherwise append the
pair of times. -/
def busy_of_events : List GraphEvent → List (Nat × Nat)
  | [] => []
  | ev :: rest =>
    if ev.isCancelled then busy_of_events rest
    else if !(BUSY_STATUSES.contains (pyLower (showAsOrBusy ev.showAs))) then
      busy_of_events rest
    else
      match ev.startTime, ev.endTime with
      | some s, some e => (s, e) :: busy_of_events rest
      | _, _ => busy_of_events rest

/-- The event loop of `is_interval_free`, src/app.py lines 213-219: scan the
events; skip cancelled ones; return False on the first event whose
lower-cased status (defaulted to "busy") is in the inline blocking set;
return True when the scan finishes. -/
def interval_free_check : List GraphEvent → Bool
  | [] => true
  | ev :: rest =>
    if ev.isCancelled then interval_free_check rest
    else if ["busy", "oof", "workingelsewhere", "tentative"].contains
        (pyLower (showAsOrBusy ev.showAs)) then false
    else interval_free_check rest

/-- A completed HTTP response of the Graph calendarView call: its status code
and the decoded `value` list (for a 200 response with no `value` key the
Python default `[]` is the empty list here). -/
structure HttpResponse where
  status : Nat
  value : List GraphEvent

/-- Day view query, src/app.py lines 195-207.  The argument is the outcome
of `requests.get`: `.error` when the call raises a transport exception
(there is no try/except around it, so the exception propagates), `.ok`
when it completes.  On a 200 status the body events are returned; on any
other status a warning is shown and the empty list is returned. -/
def graph_day_view (transport : Except String HttpResponse) :
    Except String (List GraphEvent) :=
  match transport with
  | .error e => .error e
  | .ok r => .ok (if r.status = 200 then r.value else [])

/-- Freeness re-check, src/app.py lines 209-219: query the day view for the
chosen interval and scan the returned events; a transport exception from
the query propagates. -/
def is_interval_free (transport : Except String HttpResponse) :
    Except String Bool :=
  match graph_day_view transport with
  | .error e => .error e
  | .ok events => .ok (interval_free_check events)

/-- The inputs that decide the control flow of the confirm branch of
`booking_page`, src/app.py lines 713-762: whether the guest supplied name,
email and a chosen time (all truthy), the result of the commit-time
`is_interval_free` re-check, the success flag of `graph_create_event`, and
whether the host profile has an email address on record. -/
structure BookingEnv where
  fieldsOk : Bool
  intervalFree : Bool
  createOk : Bool
  hostEmailPresent : Bool

/-- Terminal branch of the confirm flow: the missing-fields error return,
the slot-was-just-taken rejection (error message then `st.rerun()`), the
success branch, or the create-failure branch (pick-another-time message
then `st.rerun()`). -/
inductive BookingOutcome where
  | missingFields
  | slotTaken
  | booked
  | createFailed
  deriving DecidableEq

/-- What the confirm branch did: which terminal branch it took, whether
`graph_create_event` was ever called, and whether `graph_send_mail` was
called to notify the host. -/
structure BookingResult where
  outcome : BookingOutcome
  createCalled : Bool
  mailSent : Bool
  deriving DecidableEq

/-- The confirm branch of `booking_page`, src/app.py lines 713-762.
Missing fields error out before anything else; a failed re-check shows the
slot-taken message and reruns (the `st.rerun()` exception ends the branch,
so no event is created); otherwise the event is created, and on success the
host is mailed exactly when a host email is on record, while on failure the
guest is told to choose another slot and no mail is sent. -/
def confirm_booking (env : BookingEnv) : BookingResult :=
  if !env.fieldsOk then ⟨.missingFields, false, false⟩
  else if !env.intervalFree then ⟨.slotTaken, false, false⟩
  else if env.createOk then ⟨.booked, true, env.hostEmailPresent⟩
  else ⟨.createFailed, true, false⟩

/-- The same-day cutoff time of src/app.py line 672:
`(now_local + timedelta(minutes=MIN_LEAD_MINUTES)).time()`.  Taking
`.time()` of the shifted datetime wraps past midnight, hence the modulus. -/
def lead_cutoff (now : Nat) : Nat := (now + MIN_LEAD_MINUTES) % MINUTES_PER_DAY

/-- The same-day filter of src/app.py line 673:
`slots = [t for t in slots if t > cutoff]`. -/
def lead_time_filter (now : Nat) (slots : List Nat) : List Nat :=
  slots.filter (fun t => lead_cutoff now < t)

/-- The slot list shown for the current day, src/app.py lines 668-673:
the caller applies the lead-time filter to the output of the pure
`build_slots` (the subsequent per-slot re-check loop of lines 675-682 can
only remove further slots and is modeled separately). -/
def same_day_slots (now work_start work_end meeting_minutes : Nat)
    (busy : List (Nat × Nat)) : List Nat :=
  lead_time_filter now (build_slots work_start work_end meeting_minutes busy)

theorem hasOverlap_eq_true_iff (s e : Nat) (busy : List (Nat × Nat)) :
    hasOverlap s e busy = true ↔ ∃ b ∈ busy, max s b.1 < min e b.2 := by
  simp [hasOverlap, overlap, List.any_eq_true]

theorem build_slots_from_le (meeting_minutes work_end : Nat)
    (busy : List (Nat × Nat)) :
    ∀ fuel t s, s ∈ build_slots_from meeting_minutes work_end busy fuel t → t ≤ s := by
  intro fuel
  induction fuel with
  | zero => intro t s h; simp [build_slots_from] at h
  | succ fuel ih =>
    intro t s h
    simp only [build_slots_from] at h
    split at h
    · split at h
      · exact le_trans (Nat.le_add_right t meeting_minutes) (ih _ s h)
      · rcases List.mem_cons.mp h with rfl | h2
        · exact Nat.le_refl s
        · exact le_trans (Nat.le_add_right t meeting_minutes) (ih _ s h2)
    · simp at h

theorem build_slots_from_mem (meeting_minutes work_end : Nat)
    (busy : List (Nat × Nat)) :
    ∀ fuel t, work_end < t + fuel * meeting_minutes →
      ∀ s, (s ∈ build_slots_from meeting_minutes work_end busy fuel t ↔
        ∃ k, s = t + k * meeting_minutes ∧ s + meeting_minutes ≤ work_end ∧
          hasOverlap s (s + meeting_minutes) busy = false) := by
  intro fuel
  induction fuel with
  | zero =>
    intro t hfuel s
    simp only [build_slots_from, List.not_mem_nil, false_iff, not_exists]
    intro k
    rintro ⟨rfl, hle, -⟩
    simp only [Nat.zero_mul, Nat.add_zero] at hfuel
    omega
  | succ fuel ih =>
    intro t hfuel s
    have hfuel2 : work_end < (t + meeting_minutes) + fuel * meeting_minutes := by
      rw [Nat.succ_mul] at hfuel; omega
    simp only [build_slots_from]
    by_cases hg : t + meeting_minutes ≤ work_end
    · rw [if_pos hg]
      have hrec := ih (t + meeting_minutes) hfuel2 s
      by_cases hov : hasOverlap t (t + meeting_minutes) busy = true
      · rw [if_pos hov, hrec]
        constructor
        · rintro ⟨k, rfl, hle, hnov⟩
          refine ⟨k + 1, by rw [Nat.succ_mul]; omega, hle, hnov⟩
        · rintro ⟨k, rfl, hle, hnov⟩
          cases k with
          | zero =>
            simp only [Nat.zero_mul, Nat.add_zero] at hle hnov
            rw [hnov] at hov; exact absurd hov Bool.false_ne_true
          | succ k =>
            refine ⟨k, by rw [Nat.succ_mul]; omega, ?_, ?_⟩
            · rw [Nat.succ_mul] at hle ⊢; omega
            · rw [Nat.succ_mul] at hnov ⊢
              have : t + (k * meeting_minutes + meeting_minutes) =
                  t + meeting_minutes + k * meeting_minutes := by omega
              rw [this] at hnov ⊢
              exact hnov

      · rw [if_neg hov]
        rw [Bool.not_eq_true] at hov
        rw [List.mem_cons, hrec]
        constructor
        · rintro (rfl | ⟨k, rfl, hle, hnov⟩)
          · exact ⟨0, by simp, hg, hov⟩
          · exact ⟨k + 1, by rw [Nat.succ_mul]; omega, hle, hnov⟩
        · rintro ⟨k, rfl, hle, hnov⟩
          cases k with
          | zero => left; simp
          | succ k =>
            right
            exact ⟨k, by rw [Nat.succ_mul]; omega, hle, hnov⟩
    · rw [if_neg hg]
      simp only [List.not_mem_nil, false_iff, not_exists]
      intro k
      rintro ⟨rfl, hle, -⟩
      cases k with
      | zero => simp only [Nat.zero_mul, Nat.add_zero] at hle; omega
      | succ k => rw [Nat.succ_mul] at hle; omega

theorem mem_build_slots (work_start work_end meeting_minutes : Nat)
    (busy : List (Nat × Nat)) (hm : 0 < meeting_minutes) (s : Nat) :
    s ∈ build_slots work_start work_end meeting_minutes busy ↔
      ∃ k, s = work_start + k * meeting_minutes ∧
        s + meeting_minutes ≤ work_end ∧
        hasOverlap s (s + meeting_minutes) busy = false := by
  have hfuel : work_end < work_start + (work_end + 1) * meeting_minutes := by
    have : work_end + 1 ≤ (work_end + 1) * meeting_minutes :=
      Nat.le_mul_of_pos_right (work_end + 1) hm
    omega
  exact build_slots_from_mem meeting_minutes work_end busy (work_end + 1)
    work_start hfuel s

theorem build_slots_pairwise (work_start work_end meeting_minutes : Nat)
    (busy : List (Nat × Nat)) (hm : 0 < meeting_minutes) :
    List.Pairwise (· < ·) (build_slots work_start work_end meeting_minutes busy) := by
  suffices h : ∀ fuel t,
      List.Pairwise (· < ·) (build_slots_from meeting_minutes work_end busy fuel t) by
    exact h (work_end + 1) work_start
  intro fuel
  induction fuel with
  | zero => intro t; simp [build_slots_from]
  | succ fuel ih =>
    intro t
    simp only [build_slots_from]
    split
    · split
      · exact ih _
      · refine List.Pairwise.cons ?_ (ih _)
        intro s hs
        have := build_slots_from_le meeting_minutes work_end busy fuel
          (t + meeting_minutes) s hs
        omega
    · exact List.Pairwise.nil

/-- Claim C1: a candidate slot, i.e. a whole number of duration steps from
work_start whose end fits in the work window, is excluded from the output
of build_slots exactly when some busy interval (bs, be) overlaps it in the
open sense max(s, bs) < min(s + duration, be); and a busy interval that
merely touches the slot at an endpoint (be = s, or bs = slot end) never
counts as overlapping. -/
theorem slot_excluded_iff_open_overlap
    (work_start work_end meeting_minutes : Nat) (busy : List (Nat × Nat))
    (s k : Nat) (hm : 0 < meeting_minutes)
    (hs : s = work_start + k * meeting_minutes)
    (hfit : s + meeting_minutes ≤ work_end) :
    (s ∉ build_slots work_start work_end meeting_minutes busy ↔
      ∃ b ∈ busy, max s b.1 < min (s + meeting_minutes) b.2)
    ∧ ∀ bs be : Nat, be = s ∨ bs = s + meeting_minutes →
        overlap s (s + meeting_minutes) bs be = false := by
  have hmem := mem_build_slots work_start work_end meeting_minutes busy hm s
  refine ⟨⟨?_, ?_⟩, ?_⟩
  · intro hnot
    by_contra hnoex
    apply hnot
    rw [hmem]
    refine ⟨k, hs, hfit, ?_⟩
    cases hov : hasOverlap s (s + meeting_minutes) busy
    · rfl
    · exact absurd ((hasOverlap_eq_true_iff _ _ _).mp hov) hnoex
  · intro hex hmem2
    rw [hmem] at hmem2
    obtain ⟨k2, -, -, hnov⟩ := hmem2
    rw [(hasOverlap_eq_true_iff _ _ _).mpr hex] at hnov
    exact Bool.noConfusion hnov
  · intro bs be hbe
    rcases hbe with rfl | rfl <;>
      simp only [overlap, decide_eq_false_iff_not] <;> omega

/-- Closed instance of claim C1 at the scenario of the spec: work hours
09:00 to 17:00 (minutes 540 to 1020), 30-minute meetings, one busy interval
10:00 to 10:30; the 10:00 candidate is excluded exactly when the busy
interval overlaps it openly (it does), and touching intervals never
overlap. -/
theorem slot_excluded_iff_open_overlap_witness :
    ((600 : Nat) ∉ build_slots 540 1020 30 [(600, 630)] ↔
      ∃ b ∈ [((600 : Nat), (630 : Nat))], max 600 b.1 < min (600 + 30) b.2)
    ∧ ∀ bs be : Nat, be = 600 ∨ bs = 600 + 30 →
        overlap 600 (600 + 30) bs be = false :=
  slot_excluded_iff_open_overlap 540 1020 30 [(600, 630)] 600 2 (by decide)
    (by decide) (by decide)

/-- Claim C2: for a positive duration, every slot returned by build_slots is
work_start plus a whole number of duration steps, the returned list is
strictly ascending (so it has no duplicates), and every returned slot ends
by work_end, so there is no partial trailing slot. -/
theorem build_slots_sorted_and_step_aligned
    (work_start work_end meeting_minutes : Nat) (busy : List (Nat × Nat))
    (hm : 0 < meeting_minutes) :
    List.Pairwise (· < ·) (build_slots work_start work_end meeting_minutes busy)
    ∧ ∀ s ∈ build_slots work_start work_end meeting_minutes busy,
        (∃ k, s = work_start + k * meeting_minutes) ∧
        s + meeting_minutes ≤ work_end := by
  refine ⟨build_slots_pairwise _ _ _ _ hm, ?_⟩
  intro s hsmem
  rw [mem_build_slots _ _ _ _ hm] at hsmem
  obtain ⟨k, hk, hle, -⟩ := hsmem
  exact ⟨⟨k, hk⟩, hle⟩

/-- Closed instance of claim C2 at a concrete input. -/
theorem build_slots_sorted_and_step_aligned_witness :
    List.Pairwise (· < ·) (build_slots 540 1020 30 [(600, 630)])
    ∧ ∀ s ∈ build_slots 540 1020 30 [(600, 630)],
        (∃ k, s = 540 + k * 30) ∧ s + 30 ≤ 1020 :=
  build_slots_sorted_and_step_aligned 540 1020 30 [(600, 630)] (by decide)

/-- Claim C8: for the 09:00 to 17:00 window (minutes 540 to 1020) with
30-minute meetings and no busy intervals, build_slots returns exactly the
16 slots 09:00, 09:30, ..., 16:30 in ascending order; and in general with
no busy intervals every step slot whose end fits in the work window is a
candidate. -/
theorem build_slots_nine_to_five :
    build_slots 540 1020 30 [] =
      [540, 570, 600, 630, 660, 690, 720, 750, 780, 810, 840, 870, 900, 930,
        960, 990]
    ∧ ∀ work_start work_end meeting_minutes : Nat, 0 < meeting_minutes →
        ∀ s, s ∈ build_slots work_start work_end meeting_minutes [] ↔
          ∃ k, s = work_start + k * meeting_minutes ∧
            s + meeting_minutes ≤ work_end := by
  constructor
  · decide
  · intro ws we m hm s
    rw [mem_build_slots ws we m [] hm s]
    simp [hasOverlap]

/-- Claim C3: in busy-interval construction an event in the returned list is
handled independently of the rest of the list, a cancelled event is
skipped, and an event contributes a busy interval exactly when it is not
cancelled, its lower-cased defaulted status tag is in the blocking set
BUSY_STATUSES, and its two timestamps parse; in particular every event with
a non-blocking status (such as free) contributes no busy interval. -/
theorem busy_event_classification (ev : GraphEvent) (rest : List GraphEvent) :
    busy_of_events (ev :: rest) = busy_of_events [ev] ++ busy_of_events rest
    ∧ (ev.isCancelled = true → busy_of_events [ev] = [])
    ∧ (busy_of_events [ev] ≠ [] ↔
        ev.isCancelled = false
        ∧ BUSY_STATUSES.contains (pyLower (showAsOrBusy ev.showAs)) = true
        ∧ ev.startTime.isSome = true ∧ ev.endTime.isSome = true) := by
  obtain ⟨canc, sa, st, en⟩ := ev
  cases canc
  · by_cases hcontains : pyLower (showAsOrBusy sa) ∈ BUSY_STATUSES <;>
      cases st <;> cases en <;> simp [busy_of_events, hcontains]
  · cases st <;> cases en <;> simp [busy_of_events]

/-- Closed instance of claim C3: a cancelled event contributes nothing. -/
theorem busy_event_classification_witness :
    busy_of_events [⟨true, some "busy", some 600, some 630⟩] = [] :=
  (busy_event_classification ⟨true, some "busy", some 600, some 630⟩ []).2.1 rfl

/-- Claim C4 counterexample: a transport failure in which the HTTP call
itself raises (for example a connection timeout: requests.get at src/app.py
lines 202-204 is wrapped in no try/except) is not turned into an empty
event list; graph_day_view propagates the exception to its caller. -/
theorem graph_day_view_propagates_exception :
    graph_day_view (Except.error "ReadTimeout") = Except.error "ReadTimeout"
    ∧ graph_day_view (Except.error "ReadTimeout") ≠
        Except.ok ([] : List GraphEvent) :=
  ⟨rfl, fun h => Except.noConfusion h⟩

/-- Claim C4 (amended): when the calendarView read completes with a
non-success HTTP status, graph_day_view returns the empty event list
without raising, so the caller sees an empty busy set and treats the day as
fully free; a transport-level exception raised by the HTTP call itself,
however, propagates to the caller uncaught. -/
theorem graph_day_view_fail_open_on_status (r : HttpResponse) (e : String)
    (h : r.status ≠ 200) :
    graph_day_view (Except.ok r) = Except.ok []
    ∧ graph_day_view (Except.error e) = Except.error e := by
  refine ⟨?_, rfl⟩
  simp [graph_day_view, if_neg h]

/-- Closed instance of claim C4 (amended) at status 500 and a timeout. -/
theorem graph_day_view_fail_open_on_status_witness :
    graph_day_view (Except.ok ⟨500, []⟩) = Except.ok []
    ∧ graph_day_view (Except.error "timeout") = Except.error "timeout" :=
  graph_day_view_fail_open_on_status ⟨500, []⟩ "timeout" (by decide)

/-- Claim C5: in the confirm flow, a failed commit-time re-check ends on the
slot-was-just-taken branch with graph_create_event never called; the host
notification mail is sent only when graph_create_event reported success;
and on create failure nothing is mailed and the guest is sent to the
choose-another-time branch. -/
theorem booking_confirm_guard_and_notify (env : BookingEnv) :
    (env.fieldsOk = true → env.intervalFree = false →
      (confirm_booking env).outcome = BookingOutcome.slotTaken
      ∧ (confirm_booking env).createCalled = false)
    ∧ ((confirm_booking env).mailSent = true → env.createOk = true)
    ∧ (env.fieldsOk = true → env.intervalFree = true → env.createOk = false →
      (confirm_booking env).mailSent = false
      ∧ (confirm_booking env).outcome = BookingOutcome.createFailed) := by
  obtain ⟨f, i, c, h⟩ := env
  cases f <;> cases i <;> cases c <;> cases h <;> simp [confirm_booking]

/-- Claim C6 counterexample: at 23:56 host-local time (minute 1436 of the
day) the cutoff (now + 5 minutes).time() wraps past midnight to minute 1,
so the 09:00 slot (minute 540) of a 09:00 to 17:00 window with no busy
events survives the same-day filter although it does not start after
now + 5 minutes. -/
theorem lead_filter_wraps_past_midnight :
    540 ∈ same_day_slots 1436 540 1020 30 []
    ∧ ¬ (1436 + MIN_LEAD_MINUTES < 540) := by decide

/-- Claim C6 (amended): whenever now + MIN_LEAD_MINUTES stays within the
current day, a slot is shown for the current day exactly when the pure
build_slots produced it and it starts strictly after now + MIN_LEAD_MINUTES
(so every candidate at or before the cutoff is discarded); the filter acts
on the output of build_slots, which itself never reads the clock.  When
now + MIN_LEAD_MINUTES crosses midnight the cutoff wraps to an early-
morning time of day and already-past slots can be shown, as the
counterexample records. -/
theorem lead_time_filter_no_wrap
    (now work_start work_end meeting_minutes : Nat) (busy : List (Nat × Nat))
    (h : now + MIN_LEAD_MINUTES < MINUTES_PER_DAY) (t : Nat) :
    t ∈ same_day_slots now work_start work_end meeting_minutes busy ↔
      t ∈ build_slots work_start work_end meeting_minutes busy
        ∧ now + MIN_LEAD_MINUTES < t := by
  have hc : lead_cutoff now = now + MIN_LEAD_MINUTES := Nat.mod_eq_of_lt h
  simp [same_day_slots, lead_time_filter, List.mem_filter, hc]

/-- Closed instance of claim C6 (amended): at 10:00 (minute 600) the 10:30
slot of the 09:00 to 17:00 window is shown exactly when build_slots
produced it and it is after 10:05. -/
theorem lead_time_filter_no_wrap_witness :
    630 ∈ same_day_slots 600 540 1020 30 [] ↔
      630 ∈ build_slots 540 1020 30 [] ∧ 600 + MIN_LEAD_MINUTES < 630 :=
  lead_time_filter_no_wrap 600 540 1020 30 [] (by decide) 630

/-- Claim C7: an event whose start or end timestamp fails to parse is
skipped on its own: the busy list built from an event list containing it is
exactly the busy list built from the same list with that event removed, so
every other event is classified as it would be without the malformed one;
the construction is a total function, so no exception escapes it. -/
theorem malformed_event_skipped (pre post : List GraphEvent) (ev : GraphEvent)
    (h : ev.startTime = none ∨ ev.endTime = none) :
    busy_of_events (pre ++ ev :: post) = busy_of_events (pre ++ post) := by
  induction pre with
  | nil =>
    simp only [List.nil_append, busy_of_events]
    rcases h with h | h
    · rw [h]; simp
    · rw [h]; cases hst : ev.startTime <;> simp
  | cons p pre ih =>
    simp [busy_of_events, ih]

/-- Closed instance of claim C7 at the scenario of the spec: one malformed
event among three valid ones is dropped and the rest are classified as
without it. -/
theorem malformed_event_skipped_witness :
    busy_of_events [⟨false, some "busy", some 60, some 90⟩,
        ⟨false, some "busy", none, some 150⟩,
        ⟨false, some "oof", some 180, some 210⟩,
        ⟨false, some "free", some 240, some 270⟩] =
      busy_of_events [⟨false, some "busy", some 60, some 90⟩,
        ⟨false, some "oof", some 180, some 210⟩,
        ⟨false, some "free", some 240, some 270⟩] :=
  malformed_event_skipped [⟨false, some "busy", some 60, some 90⟩]
    [⟨false, some "oof", some 180, some 210⟩,
      ⟨false, some "free", some 240, some 270⟩]
    ⟨false, some "busy", none, some 150⟩ (Or.inl rfl)

/-- Claim C9: the commit-time re-check itself fails open: when the
calendarView read inside is_interval_free completes with a non-success
status, graph_day_view returns the empty event list, is_interval_free
reports the interval free, and the confirm flow with a passing re-check
does not take the slot-taken branch but goes on to call
graph_create_event. -/
theorem revalidation_fails_open (r : HttpResponse) (env : BookingEnv)
    (hstatus : r.status ≠ 200) (hfields : env.fieldsOk = true)
    (hfree : env.intervalFree = true) :
    graph_day_view (Except.ok r) = Except.ok []
    ∧ is_interval_free (Except.ok r) = Except.ok true
    ∧ (confirm_booking env).createCalled = true
    ∧ (confirm_booking env).outcome ≠ BookingOutcome.slotTaken := by
  have h1 : graph_day_view (Except.ok r) = Except.ok [] := by
    simp [graph_day_view, if_neg hstatus]
  refine ⟨h1, ?_, ?_, ?_⟩
  · rw [is_interval_free, h1]; rfl
  · cases hc : env.createOk <;> simp [confirm_booking, hfields, hfree, hc]
  · cases hc : env.createOk <;> simp [confirm_booking, hfields, hfree, hc]

/-- Closed instance of claim C9 at status 503 and a fully supplied booking
form. -/
theorem revalidation_fails_open_witness :
    graph_day_view (Except.ok ⟨503, []⟩) = Except.ok []
    ∧ is_interval_free (Except.ok ⟨503, []⟩) = Except.ok true
    ∧ (confirm_booking ⟨true, true, true, true⟩).createCalled = true
    ∧ (confirm_booking ⟨true, true, true, true⟩).outcome ≠
        BookingOutcome.slotTaken :=
  revalidation_fails_open ⟨503, []⟩ ⟨true, true, true, true⟩ (by decide) rfl rfl

/-- Claim C10: an event whose showAs field is missing, None or the empty
string gets the default status value busy, so it is blocking: it makes the
is_interval_free scan report not-free, and, when its timestamps parse, it
contributes its interval to the busy list; the classification default is
fail-blocking. -/
theorem missing_show_as_defaults_to_busy (ev : GraphEvent)
    (rest : List GraphEvent) (hshow : ev.showAs = none ∨ ev.showAs = some "")
    (hcanc : ev.isCancelled = false) :
    showAsOrBusy ev.showAs = "busy"
    ∧ interval_free_check (ev :: rest) = false
    ∧ ∀ s e : Nat, ev.startTime = some s → ev.endTime = some e →
        busy_of_events (ev :: rest) = (s, e) :: busy_of_events rest := by
  have hbusy : showAsOrBusy ev.showAs = "busy" := by
    rcases hshow with h | h <;> rw [h] <;> rfl
  have hlow : pyLower "busy" = "busy" := by decide
  refine ⟨hbusy, ?_, ?_⟩
  · simp [interval_free_check, hcanc, hbusy, hlow]
  · intro s e hst hen
    simp [busy_of_events, BUSY_STATUSES, hcanc, hbusy, hlow, hst, hen]

/-- Closed instance of claim C10: an uncancelled event with no showAs field
from 09:00 to 09:30 defaults to busy, blocks is_interval_free, and lands in
the busy list. -/
theorem missing_show_as_defaults_to_busy_witness :
    showAsOrBusy none = "busy"
    ∧ interval_free_check [⟨false, none, some 540, some 570⟩] = false
    ∧ ∀ s e : Nat, (some 540 : Option Nat) = some s →
        (some 570 : Option Nat) = some e →
        busy_of_events [⟨false, none, some 540, some 570⟩] = [(s, e)] :=
  missing_show_as_defaults_to_busy ⟨false, none, some 540, some 570⟩ []
    (Or.inl rfl) rfl
